import Mathlib

/-!
Verification development for the CLI bootstrap pipeline of `src/bin.ts`
(ts-node's `bin` entry point).

The TypeScript source is shallowly embedded: every JavaScript function that the
claims mention is translated into a computable Lean definition.  Values that
may be `undefined` in JavaScript are modelled with `Option`; JavaScript
truthiness of optional booleans and strings is made explicit through the
`truthy`/`truthyStr` helpers.  External collaborators (`path.resolve`, the
`findAndReadConfig` configuration-merge collaborator, `require.resolve`-based
script resolution, the REPL service's `evalCode`, `util.inspect`, the TTY flag
of stdin, and the process working directory) are parameters, bundled in `Env`.
-/

namespace TsNode

/-- JavaScript truthiness of a `boolean | undefined` value: `undefined` and
`false` are falsy, `true` is truthy. -/
def truthy (b : Option Bool) : Bool := b.getD false

/-- JavaScript truthiness of a `string | undefined` value: `undefined` and the
empty string are falsy. -/
def truthyStr (s : Option String) : Bool :=
  match s with
  | none => false
  | some s => !s.isEmpty

/-- Result of `parseArgv` (bin.ts lines 149-312), restricted to the fields the
bootstrap pipeline itself reads.  The remaining fields (`compiler`,
`transpileOnly`, `files`, ...) are passed through verbatim to the external
configuration collaborator and never branched on by the pipeline, so they are
not modelled.  Defaults applied by the destructuring in `parseArgv` are
reflected in the types: `help`, `print` and `interactive` default to `false`
(plain `Bool`), `version` defaults to `0` (`Nat`, from `arg.COUNT`), while
`code`, `cwdArg`, `scriptMode`, `cwdMode`, `showConfig` and `esm` stay
`undefined` when not given (`Option`). -/
structure ParsedArgv where
  restArgs : List String
  cwdArg : Option String
  help : Bool
  scriptMode : Option Bool
  cwdMode : Option Bool
  version : Nat
  showConfig : Option Bool
  code : Option String
  print : Bool
  interactive : Bool
  esm : Option Bool
deriving DecidableEq, Repr

/-- Argument record of `getEntryPointInfo` (bin.ts lines 479-483):
`{ code: string | undefined; interactive: boolean | undefined; restArgs: string[] }`.
`interactive` is an `Option Bool` because `phase4` passes
`payload.initialArgv?.interactive`, which is `undefined` in a forked child. -/
structure EntryPointArgv where
  code : Option String
  interactive : Option Bool
  restArgs : List String
deriving DecidableEq, Repr

/-- Return value of `getEntryPointInfo` (bin.ts lines 502-508). -/
structure EntryPointInfo where
  executeEval : Bool
  executeEntrypoint : Bool
  executeRepl : Bool
  executeStdin : Bool
  entryPointPath : Option String
deriving DecidableEq, Repr

/-- Embedding of `getEntryPointInfo` (bin.ts lines 477-509).

`resolvePath a b` stands for `path.resolve(a, b)` and `stdinIsTTY` for the
ambient `process.stdin.isTTY` (a `boolean | undefined`).  The boolean formulas
are transcribed literally:
`executeEval = code != null && !(interactive && restArgs.length)`,
`executeEntrypoint = !executeEval && restArgs.length > 0`,
`executeRepl = !executeEntrypoint && (interactive || (process.stdin.isTTY && !executeEval))`,
`executeStdin = !executeEval && !executeRepl && !executeEntrypoint`,
`entryPointPath = executeEntrypoint ? resolve(resolutionCwd, restArgs[0]) : undefined`. -/
def getEntryPointInfo (resolvePath : String → String → String) (stdinIsTTY : Option Bool)
    (resolutionCwd : String) (argvResult : EntryPointArgv) : EntryPointInfo :=
  let code := argvResult.code
  let interactive := argvResult.interactive
  let restArgs := argvResult.restArgs
  let executeEval := code.isSome && !(truthy interactive && restArgs.length != 0)
  let executeEntrypoint := !executeEval && decide (restArgs.length > 0)
  let executeRepl :=
    !executeEntrypoint && (truthy interactive || (truthy stdinIsTTY && !executeEval))
  let executeStdin := !executeEval && !executeRepl && !executeEntrypoint
  let entryPointPath : Option String :=
    if executeEntrypoint then some (resolvePath resolutionCwd (restArgs.headD "")) else none
  { executeEval, executeEntrypoint, executeRepl, executeStdin, entryPointPath }

/-- Typed usage errors thrown by `getProjectSearchDir` (bin.ts lines 764-771,
both are `TypeError`s in the source, distinguished here by their message). -/
inductive UsageError
  | cwdModeWithScriptMode
  | scriptModeWithoutScript
deriving DecidableEq, Repr

/-- Embedding of `getProjectSearchDir` (bin.ts lines 757-800).

`resolveScriptDir s` stands for `dirname(requireResolveNonCached(s))`, the
host-resolver collaborator used under the temporary no-op extension
registrations (bin.ts lines 782-796); the registration bookkeeping itself is
I/O plumbing with no observable effect on the returned value.  The two
`TypeError` throws become `Except.error`.  The `doScriptMode` ternary
`scriptMode === true ? true : cwdMode === true ? false : !!scriptPath`
is transcribed with strict-equality matches on the optional booleans. -/
def getProjectSearchDir (resolveScriptDir : String → String)
    (cwd : Option String) (scriptMode cwdMode : Option Bool)
    (scriptPath : Option String) : Except UsageError (Option String) :=
  if truthy scriptMode && truthy cwdMode then
    .error .cwdModeWithScriptMode
  else if truthy scriptMode && !truthyStr scriptPath then
    .error .scriptModeWithoutScript
  else
    let doScriptMode : Bool :=
      if scriptMode = some true then true
      else if cwdMode = some true then false
      else truthyStr scriptPath
    if doScriptMode then
      .ok (scriptPath.map resolveScriptDir)
    else
      .ok cwd

/-- The slice of the merged `ts-node` options that the bootstrap pipeline
itself reads back: only `options.esm` is consulted (bin.ts line 458).  All
other merged options are opaque payload of the external collaborator. -/
structure TsNodeOptions where
  esm : Bool
deriving DecidableEq, Repr

/-- Opaque configuration object returned by the external `findAndReadConfig`
collaborator, restricted to the part the pipeline reads. -/
structure PreloadedConfig where
  options : TsNodeOptions
deriving DecidableEq, Repr

/-- Arguments the pipeline hands to the external `findAndReadConfig`
collaborator (bin.ts lines 422-454), restricted to the fields the pipeline
computes itself; the passthrough compiler/project flags are forwarded
verbatim from `ParsedArgv` and are not branched on. -/
structure FindConfigArgs where
  cwd : String
  projectSearchDir : Option String
deriving DecidableEq, Repr

/-- Return value of `phase3` (bin.ts lines 456-459). -/
structure Phase3Result where
  preloadedConfig : PreloadedConfig
  enableEsmLoader : Bool
deriving DecidableEq, Repr

/-- Value thrown or produced by evaluated user code; `str` is the case
distinguished by `typeof result === 'string'` in `evalAndExitOnTsError`. -/
inductive JsValue
  | str (s : String)
  | num (n : Int)
  | undef
deriving DecidableEq, Repr

/-- Value thrown by the REPL service's `evalCode`: either the distinguished
compiler error kind (`error instanceof TSError`) or any other thrown value. -/
inductive ThrownError
  | tsError (diagnosticText : String)
  | other (v : JsValue)
deriving DecidableEq, Repr

/-- External collaborators and ambient process state, passed explicitly to the
embedded pipeline functions. -/
structure Env where
  /-- `path.resolve(a, b)`. -/
  resolvePath : String → String → String
  /-- `process.stdin.isTTY` (a `boolean | undefined`). -/
  stdinIsTTY : Option Bool
  /-- `process.cwd()`. -/
  processCwd : String
  /-- The external configuration-merge collaborator `findAndReadConfig`. -/
  findAndReadConfig : FindConfigArgs → PreloadedConfig
  /-- `dirname(requireResolveNonCached(script))`, the host module resolver. -/
  resolveScriptDir : String → String
  /-- The REPL service's `evalCode` (throws become `Except.error`). -/
  evalCode : String → Except ThrownError JsValue
  /-- `util.inspect`, used on non-string printed results. -/
  inspectFn : JsValue → String
  /-- Whether the active compiler supports `convertToTSConfig` (`--showConfig`). -/
  supportsShowConfig : Bool

/-- Embedding of `phase3` (bin.ts lines 381-460).

The source first recomputes the candidate entry point with
`getEntryPointInfo` (line 417), then evaluates
`getProjectSearchDir(resolutionCwd, scriptMode, cwdMode, entryPointPath)`
while building the argument object of `findAndReadConfig` (line 435): a throw
inside `getProjectSearchDir` therefore aborts `phase3` before
`findAndReadConfig` is entered.  The second component of the result records
whether `findAndReadConfig` was actually invoked.
`enableEsmLoader := !!(preloadedConfig.options.esm || esm)` (line 458). -/
def phase3 (env : Env) (initialArgv : ParsedArgv) (initialResolutionCwd : String) :
    Except UsageError Phase3Result × Bool :=
  let info := getEntryPointInfo env.resolvePath env.stdinIsTTY initialResolutionCwd
    { code := initialArgv.code, interactive := some initialArgv.interactive,
      restArgs := initialArgv.restArgs }
  match getProjectSearchDir env.resolveScriptDir (some initialResolutionCwd)
      initialArgv.scriptMode initialArgv.cwdMode info.entryPointPath with
  | .error e => (.error e, false)
  | .ok projectSearchDir =>
    let preloadedConfig :=
      env.findAndReadConfig { cwd := initialResolutionCwd, projectSearchDir }
    (.ok { preloadedConfig,
           enableEsmLoader := preloadedConfig.options.esm || truthy initialArgv.esm },
     true)

/-- Observable outcome of `evalAndExitOnTsError` (bin.ts lines 830-858).
`exited s` models `process.exit(s)` after the caught `TSError` was printed to
stderr; no result is printed on that path.  `threw v` models a rethrown
non-`TSError` value propagating uncaught.  `completed p` models normal
completion, with `p` the result text printed to stdout (`none` when the
`--print` flag is off). -/
inductive EvalOutcome
  | exited (status : Nat)
  | threw (v : JsValue)
  | completed (printed : Option String)
deriving DecidableEq, Repr

/-- Embedding of `evalAndExitOnTsError` (bin.ts lines 830-858).

`evalCode` is the REPL service collaborator; `inspectFn` is `util.inspect`.
The `setupContext` call installs global bindings and has no effect on the
outcome modelled here.  The source catches only `error instanceof TSError`
(printing it and exiting with status 1); any other thrown value is rethrown.
On success, when `isPrinted` is set, a string result is printed as-is and any
other result is printed through `inspect`. -/
def evalAndExitOnTsError (inspectFn : JsValue → String)
    (evalCode : String → Except ThrownError JsValue)
    (code : String) (isPrinted : Bool) : EvalOutcome :=
  match evalCode code with
  | .error (.tsError _) => .exited 1
  | .error (.other v) => .threw v
  | .ok result =>
    if isPrinted then
      .completed (some (match result with
        | .str s => s
        | v => inspectFn v))
    else
      .completed none

/-- Concrete environment used to exercise the pipeline on closed inputs. -/
def env0 : Env where
  resolvePath := fun a b => a ++ "/" ++ b
  stdinIsTTY := some false
  processCwd := "/proj"
  findAndReadConfig := fun _ => { options := { esm := false } }
  resolveScriptDir := fun _ => "/proj"
  evalCode := fun c => if c = "boom" then .error (.tsError "TS1005") else .ok (.str c)
  inspectFn := fun _ => "[inspected]"
  supportsShowConfig := true

/-- Concrete parsed argv with every flag at its default. -/
def args0 : ParsedArgv where
  restArgs := []
  cwdArg := none
  help := false
  scriptMode := none
  cwdMode := none
  version := 0
  showConfig := none
  code := none
  print := false
  interactive := false
  esm := none

/-- What `phase2` printed when it terminated the process. -/
inductive Phase2Print
  | usageText
  | shortVersion
deriving DecidableEq, Repr

/-- Outcome of `phase2` (bin.ts lines 314-379): either `process.exit(status)`
after printing, or normal continuation with the resolved working directory. -/
inductive Phase2Outcome
  | exited (status : Nat) (printed : Phase2Print)
  | continued (resolutionCwd : String)
deriving DecidableEq, Repr

/-- Embedding of `phase2` (bin.ts lines 314-379): a set help flag prints the
usage text and exits with status 0; otherwise a version count of exactly 1
prints the short version string and exits with status 0; otherwise the
resolution directory is the `--cwd` override resolved against the process
working directory (`resolve(cwdArg)`, line 371), or the process working
directory itself (line 373). -/
def phase2 (env : Env) (args : ParsedArgv) : Phase2Outcome :=
  if args.help then .exited 0 .usageText
  else if args.version = 1 then .exited 0 .shortVersion
  else .continued (match args.cwdArg with
    | some c => env.resolvePath env.processCwd c
    | none => env.processCwd)

/-- Embedding of `BootstrapStateForForkedProcesses` (bin.ts lines 78-88): the
continuation record for forked child processes carries only the rest
arguments and the `Pick` of `enableEsmLoader` and `preloadedConfig` from the
phase3 result — which is the whole `Phase3Result`. -/
structure BootstrapStateForForkedProcesses where
  restArgs : List String
  phase3Result : Phase3Result
deriving DecidableEq, Repr

/-- Embedding of `BootstrapStateInitialProcess` (bin.ts lines 90-95):
`phase3Result` is optional and, in the source, never assigned on this record
before it is handed to `callInChildWithEsm`. -/
structure BootstrapStateInitialProcess where
  restArgs : List String
  initialArgv : ParsedArgv
  initialResolutionCwd : String
  phase3Result : Option Phase3Result
deriving DecidableEq, Repr

/-- Embedding of `BootstrapStateForChild` (bin.ts lines 97-98), the parameter
type of `phase4`: the forked-process record intersected with the optional
initial-process fields, with `phase3Result` required (`MarkPropAsRequired`). -/
structure BootstrapStateForChild where
  restArgs : List String
  phase3Result : Phase3Result
  initialArgv : Option ParsedArgv
  initialResolutionCwd : Option String
deriving DecidableEq, Repr

/-- Embedding of `createBootstrapStateForChildProcess` (bin.ts lines 740-752):
the record is built field by field so that no other property of the
accumulated state is persisted. -/
def createBootstrapStateForChildProcess (state : BootstrapStateForChild) :
    BootstrapStateForForkedProcesses :=
  { restArgs := state.restArgs,
    phase3Result :=
      { preloadedConfig := state.phase3Result.preloadedConfig,
        enableEsmLoader := state.phase3Result.enableEsmLoader } }

/-- Observable ordered events of `phase4` (bin.ts lines 511-738). -/
inductive Phase4Event
  /-- `createFromPreloadedConfig` plus `register(service)` (lines 586-597). -/
  | constructedService
  /-- `lateBindHooks(createEsmHooks(service))` (lines 599-602). -/
  | boundEsmHooks
  /-- Version block for a count of exactly 2 (lines 610-615). -/
  | printedVersion2
  /-- Version block for counts of 3 or more (lines 616-623). -/
  | printedVersion3Plus
  /-- `--showConfig` success path (lines 625-672). -/
  | printedShowConfig
  /-- `--showConfig` with an unsupported compiler (lines 627-632). -/
  | printedShowConfigError
  /-- Fork-state creation, `execArgv` push and `argv` rewrite (lines 674-692). -/
  | preparedChildProcessArgs
  /-- `Module.runMain()` on the resolved entry point (lines 695-704). -/
  | ranEntrypoint (path : Option String)
  /-- `evalAndExitOnTsError` on the inline code (lines 708-717). -/
  | ranEval (o : EvalOutcome)
  /-- `replStuff.repl.start()` (lines 719-721). -/
  | startedRepl
  /-- stdin data/end handler registration (lines 723-736). -/
  | registeredStdinHandlers
deriving DecidableEq, Repr

/-- How `phase4` relinquished control. -/
inductive Phase4Term
  | exited (status : Nat)
  | threw (v : JsValue)
  | returned
deriving DecidableEq, Repr

/-- Result of the `phase4` embedding: the recomputed entry-point information,
the ordered event list, the termination mode, the fork-persistent state (when
the dispatch point at bin.ts line 674 was reached) and the initial stdin
buffer (when stdin handlers were registered). -/
structure Phase4Run where
  entryPointInfo : EntryPointInfo
  events : List Phase4Event
  term : Phase4Term
  forkState : Option BootstrapStateForForkedProcesses
  stdinSeed : Option String
deriving DecidableEq, Repr

/-- Final stdin buffer: the seed `payload.initialArgv?.code ?? ''` (bin.ts
line 724) with every received data chunk appended in order (line 725). -/
def stdinFinalBuffer (seed : String) (chunks : List String) : String :=
  chunks.foldl (fun b c => b ++ c) seed

/-- Embedding of `phase4` (bin.ts lines 511-738).

The entry-point information is recomputed from
`payload.initialArgv?.code`, `payload.initialArgv?.interactive` and
`payload.restArgs` against `payload.initialResolutionCwd ?? process.cwd()`
(lines 514-526).  The virtual-file `EvalState`/`createRepl` constructions are
REPL plumbing whose only bootstrap-visible effect is the service wiring; the
service construction itself is recorded as an event.  The version and
`--showConfig` introspection blocks run after service construction and
`process.exit`; otherwise the fork-persistent state is created and the mode
dispatch runs: entry point via `Module.runMain`, else eval (which may exit or
rethrow, in which case the REPL never starts), then REPL, then stdin handler
registration with the buffer seeded from `payload.initialArgv?.code ?? ''`. -/
def phase4 (env : Env) (payload : BootstrapStateForChild) : Phase4Run :=
  let resolutionCwd := payload.initialResolutionCwd.getD env.processCwd
  let info := getEntryPointInfo env.resolvePath env.stdinIsTTY resolutionCwd
    { code := payload.initialArgv.bind (fun a => a.code),
      interactive := payload.initialArgv.map (fun a => a.interactive),
      restArgs := payload.restArgs }
  let events0 : List Phase4Event :=
    if payload.phase3Result.enableEsmLoader then
      [.constructedService, .boundEsmHooks]
    else
      [.constructedService]
  if payload.initialArgv.map (fun a => a.version) = some 2 then
    { entryPointInfo := info, events := events0 ++ [.printedVersion2],
      term := .exited 0, forkState := none, stdinSeed := none }
  else if 3 ≤ (payload.initialArgv.map (fun a => a.version)).getD 0 then
    { entryPointInfo := info, events := events0 ++ [.printedVersion3Plus],
      term := .exited 0, forkState := none, stdinSeed := none }
  else if truthy (payload.initialArgv.bind (fun a => a.showConfig)) then
    if env.supportsShowConfig then
      { entryPointInfo := info, events := events0 ++ [.printedShowConfig],
        term := .exited 0, forkState := none, stdinSeed := none }
    else
      { entryPointInfo := info, events := events0 ++ [.printedShowConfigError],
        term := .exited 1, forkState := none, stdinSeed := none }
  else
    let forkState := createBootstrapStateForChildProcess payload
    let events1 := events0 ++ [.preparedChildProcessArgs]
    if info.executeEntrypoint then
      { entryPointInfo := info, events := events1 ++ [.ranEntrypoint info.entryPointPath],
        term := .returned, forkState := some forkState, stdinSeed := none }
    else
      let oEval : Option EvalOutcome :=
        if info.executeEval then
          some (evalAndExitOnTsError env.inspectFn env.evalCode
            ((payload.initialArgv.bind (fun a => a.code)).getD "")
            ((payload.initialArgv.map (fun a => a.print)).getD false))
        else none
      match oEval with
      | some (.exited n) =>
        { entryPointInfo := info, events := events1 ++ [.ranEval (.exited n)],
          term := .exited n, forkState := some forkState, stdinSeed := none }
      | some (.threw v) =>
        { entryPointInfo := info, events := events1 ++ [.ranEval (.threw v)],
          term := .threw v, forkState := some forkState, stdinSeed := none }
      | o =>
        let evalEvents : List Phase4Event := match o with
          | some oo => [.ranEval oo]
          | none => []
        let replEvents : List Phase4Event :=
          if info.executeRepl then [.startedRepl] else []
        let stdinSeed : Option String :=
          if info.executeStdin then
            some ((payload.initialArgv.bind (fun a => a.code)).getD "")
          else none
        let stdinEvents : List Phase4Event :=
          if info.executeStdin then [.registeredStdinHandlers] else []
        { entryPointInfo := info,
          events := events1 ++ evalEvents ++ replEvents ++ stdinEvents,
          term := .returned, forkState := some forkState, stdinSeed := stdinSeed }

/-- Payload with which `phase4` runs in a forked child: the deserialized
forked-process state, which has no `initialArgv` and no
`initialResolutionCwd`. -/
def forkedChildPayload (f : BootstrapStateForForkedProcesses) : BootstrapStateForChild :=
  { restArgs := f.restArgs, phase3Result := f.phase3Result,
    initialArgv := none, initialResolutionCwd := none }

/-- Union parameter of `completeBootstrap` (bin.ts line 131):
`BootstrapStateForForkedProcesses | BootstrapStateInitialProcess`. -/
inductive CompleteBootstrapState
  | forked (s : BootstrapStateForForkedProcesses)
  | initial (s : BootstrapStateInitialProcess)
deriving DecidableEq, Repr

/-- Result of `completeBootstrap` together with how many times `phase3` ran
inside it: `ran run n` means `phase4` produced `run` after `n` local `phase3`
calls, `usageError e n` means a local `phase3` call threw. -/
inductive CompleteBootstrapResult
  | ran (run : Phase4Run) (phase3Calls : Nat)
  | usageError (e : UsageError) (phase3Calls : Nat)
deriving DecidableEq, Repr

/-- Number of `phase3` invocations recorded in a `completeBootstrap` result. -/
def phase3CallCount : CompleteBootstrapResult → Nat
  | .ran _ n => n
  | .usageError _ n => n

/-- Embedding of `completeBootstrap` (bin.ts lines 130-147): when the state
carries no `phase3Result`, `phase3` is computed here, in the process running
this function; otherwise the carried result is consumed as-is.  The number of
local `phase3` calls is recorded in the result. -/
def completeBootstrap (env : Env) (state : CompleteBootstrapState) : CompleteBootstrapResult :=
  match state with
  | .forked s => .ran (phase4 env (forkedChildPayload s)) 0
  | .initial s =>
    match s.phase3Result with
    | some p3 =>
      .ran (phase4 env { restArgs := s.restArgs, phase3Result := p3,
                         initialArgv := some s.initialArgv,
                         initialResolutionCwd := some s.initialResolutionCwd }) 0
    | none =>
      match phase3 env s.initialArgv s.initialResolutionCwd with
      | (.ok p3, _) =>
        .ran (phase4 env { restArgs := s.restArgs, phase3Result := p3,
                           initialArgv := some s.initialArgv,
                           initialResolutionCwd := some s.initialResolutionCwd }) 1
      | (.error e, _) => .usageError e 1

/-- Outcome of `bootstrap` (bin.ts lines 101-128). -/
inductive BootstrapOutcome
  | terminatedInPhase2 (status : Nat) (printed : Phase2Print)
  | spawnedEsmChild (state : BootstrapStateInitialProcess)
  | usageError (e : UsageError)
  | ranInProcess (run : Phase4Run)
deriving DecidableEq, Repr

/-- Embedding of `bootstrap` (bin.ts lines 101-128), paired with the number of
`phase3` invocations performed in this (parent) process.

Source detail central to claim C4: both `callInChildWithEsm` call sites
(lines 114 and 124) pass `initialProcessState`, which is created at lines
104-108 without a `phase3Result` property — even on the line-124 path, where
`phase3` has already run in the parent and its result sits only in the local
variable `phase3Result`, never attached to the state object handed to the
child. -/
def bootstrap (env : Env) (args : ParsedArgv) : BootstrapOutcome × Nat :=
  match phase2 env args with
  | .exited status printed => (.terminatedInPhase2 status printed, 0)
  | .continued resolutionCwd =>
    let initialProcessState : BootstrapStateInitialProcess :=
      { restArgs := args.restArgs, initialArgv := args,
        initialResolutionCwd := resolutionCwd, phase3Result := none }
    if truthy args.esm then
      (.spawnedEsmChild initialProcessState, 0)
    else
      match phase3 env args resolutionCwd with
      | (.error e, _) => (.usageError e, 1)
      | (.ok p3, _) =>
        if p3.enableEsmLoader then
          (.spawnedEsmChild initialProcessState, 1)
        else
          match completeBootstrap env
              (.initial { initialProcessState with phase3Result := some p3 }) with
          | .ran run n => (.ranInProcess run, 1 + n)
          | .usageError e n => (.usageError e, 1 + n)

/-- Modelled from the spec: decoding of one boolean token of the serialized
continuation payload (the encoding machinery lives in
`src/child/child-exec-args.ts`, which is not among the provided sources). -/
def decodeBoolTok (t : String) : Option Bool :=
  if t = "1" then some true else if t = "0" then some false else none

/-- Modelled from the spec: the cross-process continuation payload is
serialized and "passed to a spawned child as process arguments" (spec sections
5 and 6); the Brotli/JSON encoding lives in `src/child/child-exec-args.ts` and
`src/child/spawn-child-with-esm.ts`, which are not among the provided sources.
The payload is flattened into an argument list: one token for each boolean of
the phase3 slice followed by the rest-arguments. -/
def encodeForkedState (s : BootstrapStateForForkedProcesses) : List String :=
  (if s.phase3Result.enableEsmLoader then "1" else "0") ::
    (if s.phase3Result.preloadedConfig.options.esm then "1" else "0") ::
      s.restArgs

/-- Modelled from the spec: decoder for `encodeForkedState`, as run by the
child entry point before resuming at `completeBootstrap`. -/
def decodeForkedState (l : List String) : Option BootstrapStateForForkedProcesses :=
  match l with
  | esmLoaderTok :: esmOptTok :: restArgs =>
    match decodeBoolTok esmLoaderTok, decodeBoolTok esmOptTok with
    | some esmLoader, some esmOpt =>
      some { restArgs,
             phase3Result := { preloadedConfig := { options := { esm := esmOpt } },
                               enableEsmLoader := esmLoader } }
    | _, _ => none
  | _ => none

/-- Concrete `util.inspect` stand-in used by closed evaluation examples. -/
def inspect8 : JsValue → String := fun v =>
  match v with
  | .str s => s
  | .num n => toString n
  | .undef => "undefined"

/-- Concrete REPL-service `evalCode` stand-in covering the four behaviors of
interest: a compiler error, a non-compiler throw, a string result, and a
non-string result. -/
def evalCode8 : String → Except ThrownError JsValue := fun c =>
  if c = "boom" then .error (.tsError "TS1005")
  else if c = "raise" then .error (.other (.num 7))
  else if c = "1+1" then .ok (.num 2)
  else .ok (.str c)

/-- Concrete argv combining script-mode with cwd-mode. -/
def args3a : ParsedArgv := { args0 with scriptMode := some true, cwdMode := some true }

/-- Concrete argv with script-mode set and no positional arguments. -/
def args3b : ParsedArgv := { args0 with scriptMode := some true }

/-- Concrete environment whose configuration collaborator turns the merged
`esm` option on (the configuration-file-forced ESM scenario). -/
def env4 : Env := { env0 with findAndReadConfig := fun _ => { options := { esm := true } } }

/-- The initial-process state that `bootstrap env4 args0` hands to the spawned
ESM child: note the absent `phase3Result`. -/
def s4 : BootstrapStateInitialProcess :=
  { restArgs := [], initialArgv := args0, initialResolutionCwd := "/proj",
    phase3Result := none }

/-- Concrete phase3 result with every flag off. -/
def p3f : Phase3Result :=
  { preloadedConfig := { options := { esm := false } }, enableEsmLoader := false }

/-- Concrete forked-process continuation state. -/
def f0 : BootstrapStateForForkedProcesses := { restArgs := [], phase3Result := p3f }

/-- Concrete argv with only `--interactive` set. -/
def argv7 : ParsedArgv := { args0 with interactive := true }

/-- Concrete non-forked `phase4` payload for an interactive invocation. -/
def payload7 : BootstrapStateForChild :=
  { restArgs := [], phase3Result := p3f, initialArgv := some argv7,
    initialResolutionCwd := some "/proj" }

/-- Concrete argv with the help flag set and a version count of 2. -/
def args9 : ParsedArgv := { args0 with help := true, version := 2 }

/-- Concrete argv with a version count of exactly 1. -/
def args91 : ParsedArgv := { args0 with version := 1 }

/-- Concrete `phase4` payload with a version count of 2. -/
def payload92 : BootstrapStateForChild :=
  { restArgs := [], phase3Result := p3f,
    initialArgv := some { args0 with version := 2 },
    initialResolutionCwd := some "/proj" }

/-- Concrete `phase4` payload with a version count of 3. -/
def payload93 : BootstrapStateForChild :=
  { restArgs := [], phase3Result := p3f,
    initialArgv := some { args0 with version := 3 },
    initialResolutionCwd := some "/proj" }

/-- Concrete `phase4` payload for the piped-stdin scenario: no code, not
interactive, no positional arguments, stdin not a TTY. -/
def payload10 : BootstrapStateForChild :=
  { restArgs := [], phase3Result := p3f, initialArgv := some args0,
    initialResolutionCwd := some "/proj" }

end TsNode

namespace TsNode

/-- Claim C1: the five components of `getEntryPointInfo` are exactly the
spec's formulas, and the two particular consequences about inline code with
and without `--interactive` hold. -/
theorem c1_getEntryPointInfo_formulas
    (resolvePath : String → String → String) (tty : Option Bool) (cwd : String)
    (code : Option String) (interactive : Option Bool) (restArgs : List String)
    (r : EntryPointInfo)
    (hr : r = getEntryPointInfo resolvePath tty cwd ⟨code, interactive, restArgs⟩) :
    r.executeEval = (code.isSome && !(truthy interactive && !restArgs.isEmpty)) ∧
    r.executeEntrypoint = (!r.executeEval && !restArgs.isEmpty) ∧
    r.executeRepl = (!r.executeEntrypoint && (truthy interactive || (truthy tty && !r.executeEval))) ∧
    r.executeStdin = (!r.executeEval && !r.executeRepl && !r.executeEntrypoint) ∧
    (∀ a l, restArgs = a :: l → r.executeEntrypoint = true →
      r.entryPointPath = some (resolvePath cwd a)) ∧
    (r.executeEntrypoint = false → r.entryPointPath = none) ∧
    (code.isSome = true → truthy interactive = false → r.executeEval = true) ∧
    (code.isSome = true → truthy interactive = true → restArgs ≠ [] →
      r.executeEval = false ∧ r.executeEntrypoint = true) := by
  subst hr
  rcases restArgs with _ | ⟨a, l⟩ <;>
    rcases code with _ | c <;>
      rcases interactive with _ | i <;>
        simp [getEntryPointInfo, truthy]

/-- Witness for C1 at a concrete input: code given together with
`--interactive` and a positional script argument. -/
theorem c1_witness :
    (getEntryPointInfo (fun a b => a ++ "/" ++ b) (some false) "/w"
        ⟨some "1+1", some true, ["s.ts"]⟩).executeEval = false ∧
    (getEntryPointInfo (fun a b => a ++ "/" ++ b) (some false) "/w"
        ⟨some "1+1", some true, ["s.ts"]⟩).executeEntrypoint = true :=
  (c1_getEntryPointInfo_formulas (fun a b => a ++ "/" ++ b) (some false) "/w"
      (some "1+1") (some true) ["s.ts"] _ rfl).2.2.2.2.2.2.2
    (by decide) (by decide) (by decide)

/-- Claim C2: whenever `executeEval` is false, exactly one of
`executeEntrypoint`, `executeRepl`, `executeStdin` is true. -/
theorem c2_mutual_exclusivity
    (resolvePath : String → String → String) (tty : Option Bool) (cwd : String)
    (code : Option String) (interactive : Option Bool) (restArgs : List String)
    (r : EntryPointInfo)
    (hr : r = getEntryPointInfo resolvePath tty cwd ⟨code, interactive, restArgs⟩)
    (h : r.executeEval = false) :
    r.executeEntrypoint.toNat + r.executeRepl.toNat + r.executeStdin.toNat = 1 := by
  subst hr
  rcases restArgs with _ | ⟨a, l⟩ <;>
    rcases code with _ | c <;>
      rcases interactive with _ | i <;>
        rcases tty with _ | t <;>
          simp_all [getEntryPointInfo, truthy] <;>
            first
            | (cases i <;> cases t <;> rfl)
            | (cases i <;> rfl)
            | (cases t <;> rfl)

/-- Witness for C2 at a concrete input: no code, not interactive, stdin is not
a TTY, no positional arguments (the piped-stdin scenario). -/
theorem c2_witness :
    (getEntryPointInfo (fun a b => a ++ "/" ++ b) (some false) "/w"
        ⟨none, some false, []⟩).executeEntrypoint.toNat +
    (getEntryPointInfo (fun a b => a ++ "/" ++ b) (some false) "/w"
        ⟨none, some false, []⟩).executeRepl.toNat +
    (getEntryPointInfo (fun a b => a ++ "/" ++ b) (some false) "/w"
        ⟨none, some false, []⟩).executeStdin.toNat = 1 :=
  c2_mutual_exclusivity (fun a b => a ++ "/" ++ b) (some false) "/w"
    none (some false) [] _ rfl (by decide)

/-- Claim C3: `phase3` fails with a typed usage error when script-mode and
cwd-mode are both set, and when script-mode is set with an empty rest-argument
list; in both cases the recorded `findAndReadConfig`-was-invoked flag is
`false`, i.e. the error is raised before the external configuration-merge
collaborator runs. -/
theorem c3_phase3_usage_errors (env : Env) (argv : ParsedArgv) (cwd : String) :
    (truthy argv.scriptMode = true → truthy argv.cwdMode = true →
      phase3 env argv cwd = (.error .cwdModeWithScriptMode, false)) ∧
    (truthy argv.scriptMode = true → argv.restArgs = [] →
      (phase3 env argv cwd).2 = false ∧ ∃ e, (phase3 env argv cwd).1 = .error e) := by
  constructor
  · intro h1 h2
    simp [phase3, getProjectSearchDir, h1, h2]
  · intro h1 h2
    by_cases hc : truthy argv.cwdMode = true
    · simp [phase3, getProjectSearchDir, h1, hc]
    · simp only [Bool.not_eq_true] at hc
      simp [phase3, getEntryPointInfo, getProjectSearchDir, truthyStr, h1, h2, hc]

/-- Witness for C3 at concrete inputs: script-mode together with cwd-mode, and
script-mode with an empty rest-argument list. -/
theorem c3_witness :
    phase3 env0 args3a "/proj" = (.error .cwdModeWithScriptMode, false) ∧
    ((phase3 env0 args3b "/proj").2 = false ∧
      ∃ e, (phase3 env0 args3b "/proj").1 = .error e) :=
  ⟨(c3_phase3_usage_errors env0 args3a "/proj").1 (by decide) (by decide),
   (c3_phase3_usage_errors env0 args3b "/proj").2 (by decide) rfl⟩

/-- Claim C6: whenever `phase3` succeeds, the resulting `enableEsmLoader` flag
is exactly the logical OR of the merged configuration's `esm` option and the
explicit `--esm` CLI flag. -/
theorem c6_enableEsmLoader_or (env : Env) (argv : ParsedArgv) (cwd : String)
    (r : Phase3Result) (b : Bool) (h : phase3 env argv cwd = (.ok r, b)) :
    r.enableEsmLoader = (r.preloadedConfig.options.esm || truthy argv.esm) := by
  unfold phase3 at h
  dsimp only [] at h
  split at h
  · exact absurd h (by simp)
  · simp only [Prod.mk.injEq, Except.ok.injEq] at h
    obtain ⟨h1, -⟩ := h
    subst h1
    rfl

/-- Witness for C6 at a concrete input: default flags, a configuration
collaborator that leaves `esm` off. -/
theorem c6_witness :
    ({ preloadedConfig := { options := { esm := false } },
       enableEsmLoader := false } : Phase3Result).enableEsmLoader =
      (({ preloadedConfig := { options := { esm := false } },
          enableEsmLoader := false } : Phase3Result).preloadedConfig.options.esm ||
        truthy args0.esm) :=
  c6_enableEsmLoader_or env0 args0 "/proj" _ true rfl

/-- Claim C8: during eval/stdin evaluation a thrown `TSError` is caught and
turns into exit status 1 with no printed result; any other thrown value
propagates uncaught; on success with the print flag set, a string result is
printed as-is and a non-string result is printed in inspected form. -/
theorem c8_evalAndExitOnTsError_behavior (inspectFn : JsValue → String)
    (evalCode : String → Except ThrownError JsValue) (code : String) (isPrinted : Bool) :
    (∀ msg, evalCode code = .error (.tsError msg) →
      evalAndExitOnTsError inspectFn evalCode code isPrinted = .exited 1) ∧
    (∀ v, evalCode code = .error (.other v) →
      evalAndExitOnTsError inspectFn evalCode code isPrinted = .threw v) ∧
    (∀ s, evalCode code = .ok (.str s) → isPrinted = true →
      evalAndExitOnTsError inspectFn evalCode code isPrinted = .completed (some s)) ∧
    (∀ v, evalCode code = .ok v → (∀ s, v ≠ .str s) → isPrinted = true →
      evalAndExitOnTsError inspectFn evalCode code isPrinted =
        .completed (some (inspectFn v))) := by
  refine ⟨fun msg h => ?_, fun v h => ?_, fun s h hp => ?_, fun v h hv hp => ?_⟩
  · simp [evalAndExitOnTsError, h]
  · simp [evalAndExitOnTsError, h]
  · simp [evalAndExitOnTsError, h, hp]
  · rcases v with s | n | _
    · exact absurd rfl (hv s)
    · simp [evalAndExitOnTsError, h, hp]
    · simp [evalAndExitOnTsError, h, hp]

/-- Witness for C8 at concrete inputs covering all four behaviors. -/
theorem c8_witness :
    evalAndExitOnTsError inspect8 evalCode8 "boom" true = .exited 1 ∧
    evalAndExitOnTsError inspect8 evalCode8 "raise" true = .threw (.num 7) ∧
    evalAndExitOnTsError inspect8 evalCode8 "hello" true = .completed (some "hello") ∧
    evalAndExitOnTsError inspect8 evalCode8 "1+1" true =
      .completed (some (inspect8 (.num 2))) :=
  ⟨(c8_evalAndExitOnTsError_behavior inspect8 evalCode8 "boom" true).1 "TS1005" rfl,
   (c8_evalAndExitOnTsError_behavior inspect8 evalCode8 "raise" true).2.1 (.num 7) rfl,
   (c8_evalAndExitOnTsError_behavior inspect8 evalCode8 "hello" true).2.2.1 "hello" rfl rfl,
   (c8_evalAndExitOnTsError_behavior inspect8 evalCode8 "1+1" true).2.2.2 (.num 2) rfl
     (fun _ h => JsValue.noConfusion h) rfl⟩

/-- Helper: the entry-point information recorded by `phase4` is, in every
branch, the direct `getEntryPointInfo` computation on the payload's rest
arguments and the optional-chained `initialArgv` fields. -/
theorem phase4_entryPointInfo (env : Env) (payload : BootstrapStateForChild) :
    (phase4 env payload).entryPointInfo =
      getEntryPointInfo env.resolvePath env.stdinIsTTY
        (payload.initialResolutionCwd.getD env.processCwd)
        { code := payload.initialArgv.bind (fun a => a.code),
          interactive := payload.initialArgv.map (fun a => a.interactive),
          restArgs := payload.restArgs } := by
  unfold phase4
  dsimp only []
  repeat' split
  all_goals rfl

/-- Helper: when `executeStdin` holds, the inline code string is absent. -/
theorem executeStdin_code_none (resolvePath : String → String → String)
    (tty : Option Bool) (cwd : String) (a : EntryPointArgv)
    (h : (getEntryPointInfo resolvePath tty cwd a).executeStdin = true) :
    a.code = none := by
  rcases a with ⟨code, interactive, restArgs⟩
  rcases code with _ | c
  · rfl
  · exfalso
    rcases restArgs with _ | ⟨x, l⟩ <;> rcases interactive with _ | i <;>
      (try cases i) <;> simp_all [getEntryPointInfo, truthy]

/-- Helper: every `spawnedEsmChild` outcome of `bootstrap` carries a state
without a `phase3Result`. -/
theorem bootstrap_spawn_phase3Result (env : Env) (args : ParsedArgv)
    (s : BootstrapStateInitialProcess) (n : Nat)
    (h : bootstrap env args = (.spawnedEsmChild s, n)) :
    s.phase3Result = none := by
  unfold bootstrap at h
  repeat' split at h
  all_goals
    (rw [Prod.mk.injEq] at h
     obtain ⟨h1, -⟩ := h
     first
     | exact BootstrapOutcome.noConfusion h1
     | (injection h1 with h1; subst h1; rfl))

/-- Claim C5: the forked-process continuation record contains exactly the rest
arguments and the `enableEsmLoader`/`preloadedConfig` slice of the phase3
result, and is independent of the parsed `InvocationOptions` fields
(`initialArgv`) and of the initial resolution directory. -/
theorem c5_forked_state_frame (s : BootstrapStateForChild)
    (argv : Option ParsedArgv) (cwd : Option String) :
    createBootstrapStateForChildProcess s =
      { restArgs := s.restArgs,
        phase3Result := { preloadedConfig := s.phase3Result.preloadedConfig,
                          enableEsmLoader := s.phase3Result.enableEsmLoader } } ∧
    createBootstrapStateForChildProcess
        { s with initialArgv := argv, initialResolutionCwd := cwd } =
      createBootstrapStateForChildProcess s :=
  ⟨rfl, rfl⟩

/-- Counterexample to claim C9 as stated: with the help flag set and a version
count of 2, `phase2` does terminate the process (printing the usage text),
contradicting the claim that version counts of 2 or more never terminate in
`phase2`. -/
theorem c9_counterexample :
    args9.version = 2 ∧ args9.help = true ∧
    phase2 env0 args9 = .exited 0 .usageText :=
  ⟨rfl, rfl, rfl⟩

/-- Claim C9 as amended: help short-circuits `phase2` with exit status 0;
with help unset, a version count of exactly 1 prints the short version and
exits 0, and any other version count continues; version counts of 2 and of 3
or more are handled in `phase4` after the compiler service is constructed,
where they print version information and exit 0. -/
theorem c9_amended_version_handling (env : Env) (args : ParsedArgv)
    (payload : BootstrapStateForChild) (argv : ParsedArgv) :
    (args.help = true → phase2 env args = .exited 0 .usageText) ∧
    (args.help = false → args.version = 1 → phase2 env args = .exited 0 .shortVersion) ∧
    (args.help = false → args.version ≠ 1 → ∃ cwd, phase2 env args = .continued cwd) ∧
    (payload.initialArgv = some argv → argv.version = 2 →
      (phase4 env payload).term = .exited 0 ∧
      (phase4 env payload).events.head? = some .constructedService ∧
      (phase4 env payload).events.getLast? = some .printedVersion2) ∧
    (payload.initialArgv = some argv → 3 ≤ argv.version →
      (phase4 env payload).term = .exited 0 ∧
      (phase4 env payload).events.head? = some .constructedService ∧
      (phase4 env payload).events.getLast? = some .printedVersion3Plus) := by
  refine ⟨fun h1 => ?_, fun h1 h2 => ?_, fun h1 h2 => ?_,
    fun hpa hv => ?_, fun hpa hv => ?_⟩
  · simp [phase2, h1]
  · simp [phase2, h1, h2]
  · rcases hc : args.cwdArg with _ | c
    · exact ⟨env.processCwd, by simp [phase2, h1, h2, hc]⟩
    · exact ⟨env.resolvePath env.processCwd c, by simp [phase2, h1, h2, hc]⟩
  · have hc : (Option.some argv).map (fun a => a.version) = some 2 := by simp [hv]
    refine ⟨?_, ?_, ?_⟩ <;>
      (unfold phase4
       dsimp only []
       rw [hpa, if_pos hc])
    all_goals cases hel : payload.phase3Result.enableEsmLoader <;> rfl
  · have hne : argv.version ≠ 2 := by omega
    have hc1 : ¬((Option.some argv).map (fun a => a.version) = some 2) := by
      simp [hne]
    have hc2 : 3 ≤ ((Option.some argv).map (fun a => a.version)).getD 0 := by
      simpa using hv
    refine ⟨?_, ?_, ?_⟩ <;>
      (unfold phase4
       dsimp only []
       rw [hpa, if_neg hc1, if_pos hc2])
    all_goals cases hel : payload.phase3Result.enableEsmLoader <;> rfl

/-- Witness for C9's amended statement at concrete inputs: help set, version
exactly 1, version 0, and `phase4` payloads with version counts 2 and 3. -/
theorem c9_witness :
    phase2 env0 args9 = .exited 0 .usageText ∧
    phase2 env0 args91 = .exited 0 .shortVersion ∧
    (∃ cwd, phase2 env0 args0 = .continued cwd) ∧
    ((phase4 env0 payload92).term = .exited 0 ∧
      (phase4 env0 payload92).events.head? = some .constructedService ∧
      (phase4 env0 payload92).events.getLast? = some .printedVersion2) ∧
    ((phase4 env0 payload93).term = .exited 0 ∧
      (phase4 env0 payload93).events.head? = some .constructedService ∧
      (phase4 env0 payload93).events.getLast? = some .printedVersion3Plus) :=
  ⟨(c9_amended_version_handling env0 args9 payload92 { args0 with version := 2 }).1 rfl,
   (c9_amended_version_handling env0 args91 payload92 { args0 with version := 2 }).2.1 rfl rfl,
   (c9_amended_version_handling env0 args0 payload92 { args0 with version := 2 }).2.2.1 rfl
     (by decide),
   (c9_amended_version_handling env0 args0 payload92 { args0 with version := 2 }).2.2.2.1 rfl
     rfl,
   (c9_amended_version_handling env0 args0 payload93 { args0 with version := 3 }).2.2.2.2 rfl
     (by decide)⟩

/-- Counterexample to claim C4 as stated: with default flags and a merged
configuration whose `esm` option is on, the parent runs `phase3` once, then
`bootstrap` spawns the ESM child handing it a state that does not carry the
computed phase3 result, and `completeBootstrap` in the child calls `phase3`
again — the merged configuration is recomputed in the child. -/
theorem c4_counterexample :
    bootstrap env4 args0 = (.spawnedEsmChild s4, 1) ∧
    s4.phase3Result = none ∧
    phase3CallCount (completeBootstrap env4 (.initial s4)) = 1 :=
  ⟨rfl, rfl, rfl⟩

/-- Claim C4 as amended: on the ESM re-exec path the continuation state handed
to the spawned child never carries the phase3 result, and `completeBootstrap`
in the child therefore computes `phase3` exactly once; only the
fork-persistent state built by `createBootstrapStateForChildProcess` carries
`enableEsmLoader` and `preloadedConfig`, and `completeBootstrap` consumes it
with no `phase3` call at all. -/
theorem c4_amended_child_configuration (env : Env) (args : ParsedArgv)
    (s : BootstrapStateInitialProcess) (n : Nat) (f : BootstrapStateForForkedProcesses) :
    (bootstrap env args = (.spawnedEsmChild s, n) →
      s.phase3Result = none ∧
      phase3CallCount (completeBootstrap env (.initial s)) = 1) ∧
    completeBootstrap env (.forked f) = .ran (phase4 env (forkedChildPayload f)) 0 := by
  constructor
  · intro h
    have hs := bootstrap_spawn_phase3Result env args s n h
    refine ⟨hs, ?_⟩
    unfold completeBootstrap
    dsimp only []
    rw [hs]
    split <;>
      first
      | (rename_i heq; exact Option.noConfusion heq)
      | (split <;> rfl)
  · rfl

/-- Witness for C4's amended statement at concrete inputs: the
configuration-forced ESM scenario plus a concrete forked state. -/
theorem c4_witness :
    (s4.phase3Result = none ∧
      phase3CallCount (completeBootstrap env4 (.initial s4)) = 1) ∧
    completeBootstrap env4 (.forked f0) = .ran (phase4 env4 (forkedChildPayload f0)) 0 :=
  ⟨(c4_amended_child_configuration env4 args0 s4 1 f0).1 rfl,
   (c4_amended_child_configuration env4 args0 s4 1 f0).2⟩

/-- Counterexample to claim C7 as stated: an interactive invocation with no
inline code and no positional arguments.  The inline-eval-code field is absent
in both runs, yet the child's EntryPointInfo computation differs from the
direct non-forked one (REPL in the parent, stdin in the child), because the
interactive flag is not carried across the process boundary either. -/
theorem c7_counterexample :
    argv7.code = none ∧
    decodeForkedState (encodeForkedState (createBootstrapStateForChildProcess payload7)) =
      some (createBootstrapStateForChildProcess payload7) ∧
    (phase4 env0
        (forkedChildPayload (createBootstrapStateForChildProcess payload7))).entryPointInfo ≠
      (phase4 env0 payload7).entryPointInfo := by
  refine ⟨rfl, rfl, ?_⟩
  decide

/-- Claim C7 as amended: the forked-process continuation state survives the
serialize/deserialize round trip exactly, and the EntryPointInfo computation
`phase4` performs on it in the child equals the one computed directly from the
same rest-argument list with the inline-eval-code and interactive fields both
absent (neither is carried across the process boundary), against the child
process's working directory. -/
theorem c7_amended_roundtrip (env : Env) (payload : BootstrapStateForChild) :
    decodeForkedState (encodeForkedState (createBootstrapStateForChildProcess payload)) =
      some (createBootstrapStateForChildProcess payload) ∧
    (phase4 env
        (forkedChildPayload (createBootstrapStateForChildProcess payload))).entryPointInfo =
      getEntryPointInfo env.resolvePath env.stdinIsTTY env.processCwd
        { code := none, interactive := none, restArgs := payload.restArgs } := by
  constructor
  · rcases payload with ⟨rest, ⟨⟨⟨e⟩⟩, el⟩, ia, ic⟩
    cases el <;> cases e <;> rfl
  · rw [phase4_entryPointInfo]
    rfl

/-- Helper: the stdin buffer seed recorded by `phase4` is either absent or
exactly `payload.initialArgv?.code ?? ''`. -/
theorem phase4_stdinSeed (env : Env) (payload : BootstrapStateForChild) :
    (phase4 env payload).stdinSeed = none ∨
    (phase4 env payload).stdinSeed =
      some ((payload.initialArgv.bind (fun a => a.code)).getD "") := by
  unfold phase4
  dsimp only []
  repeat' split
  all_goals simp

/-- Claim C10: whenever `phase4`'s entry-point computation selects stdin mode,
the inline code string is absent; hence the stdin buffer seed
(`payload.initialArgv?.code ?? ''`) is the empty string whenever the handlers
are registered, and the evaluated stdin text is exactly the concatenation of
the data chunks received before end-of-stream. -/
theorem c10_stdin_buffer (env : Env) (payload : BootstrapStateForChild)
    (h : (phase4 env payload).entryPointInfo.executeStdin = true) :
    payload.initialArgv.bind (fun a => a.code) = none ∧
    (∀ s, (phase4 env payload).stdinSeed = some s → s = "") ∧
    (∀ chunks,
      stdinFinalBuffer ((payload.initialArgv.bind (fun a => a.code)).getD "") chunks =
        String.join chunks) := by
  have hinfo := phase4_entryPointInfo env payload
  have hcode : payload.initialArgv.bind (fun a => a.code) = none := by
    rw [hinfo] at h
    exact executeStdin_code_none _ _ _ _ h
  refine ⟨hcode, ?_, ?_⟩
  · intro s hs
    rcases phase4_stdinSeed env payload with hn | hseed
    · rw [hn] at hs
      exact Option.noConfusion hs
    · rw [hseed, hcode] at hs
      simp only [Option.getD_none, Option.some.injEq] at hs
      exact hs.symm
  · intro chunks
    rw [hcode]
    rfl

/-- Witness for C10 at a concrete input: the piped-stdin scenario with two
received data chunks. -/
theorem c10_witness :
    payload10.initialArgv.bind (fun a => a.code) = none ∧
    stdinFinalBuffer ((payload10.initialArgv.bind (fun a => a.code)).getD "")
        ["let x", " = 1"] = String.join ["let x", " = 1"] :=
  ⟨(c10_stdin_buffer env0 payload10 (by decide)).1,
   (c10_stdin_buffer env0 payload10 (by decide)).2.2 ["let x", " = 1"]⟩

end TsNode
